import Mathlib

/-!
Verification of the sponsorship pipeline in
packages/server/pages/api/sponsor.ts (the octane fee-payer relay).

The pipeline decodes a wire-encoded transaction (legacy or versioned),
takes a duplicate-suppression lock keyed by a digest of the message
bytes, validates fee-payer identity, blockhash freshness, signature
structure and count bounds, co-signs with the custodial key, simulates,
and then either submits the transaction or returns the signature to the
caller, depending on the returnSignature configuration.

External collaborators (the web3.js codec, the RPC client, the octane
core helpers and the duplicate cache store, which are not part of the
handler file) are modelled at their interface boundary: RPC answers,
the simulation outcome, the submission outcome and the anti-spam check
are oracle fields of the environment; the base58 codec and the signing
primitive are modelled as injective abstract encodings.  Public keys
are modelled as natural numbers, signatures as byte lists.
-/

namespace Octane

/-- Values appearing in a JSON response body: either a string or a raw
byte payload (the latter never occurs in responses of this handler;
it is present so that the absence of transaction bytes in a response
is expressible). -/
inductive JsonVal where
  | str (s : String)
  | bytes (b : List Nat)
  deriving DecidableEq

/-- Test for the byte-payload constructor of a JSON value. -/
def JsonVal.isBytes : JsonVal → Bool
  | .bytes _ => true
  | _ => false

/-- A JSON object body, as an ordered list of field-name / value pairs. -/
abbrev Body := List (String × JsonVal)

/-- An HTTP response: status code and JSON body. -/
structure HttpResponse where
  status : Nat
  body : Body
  deriving DecidableEq

/-- Success body sent by the handler:
response.send(\x7b status: "ok", signature \x7d). -/
def okBody (sig : String) : Body :=
  [("status", JsonVal.str "ok"), ("signature", JsonVal.str sig)]

/-- Error body sent by the handler:
response.send(\x7b status: "error", message \x7d). -/
def errBody (m : String) : Body :=
  [("status", JsonVal.str "error"), ("message", JsonVal.str m)]

/-- Observable side effects of one request, in order of occurrence.
rpcBlockhashCheck, rpcSimulate and rpcSubmit are network calls;
sign is the local co-signing step with the custodial key. -/
inductive Event where
  | rpcBlockhashCheck
  | sign
  | rpcSimulate
  | rpcSubmit
  deriving DecidableEq

/-- The decoded transaction message, the shape shared by both wire
variants (web3.js message view): ordered account keys (index 0 is the
fee payer), the recent-blockhash freshness token, the declared
required-signature count, and the variant discriminant. -/
structure VMessage where
  numRequiredSignatures : Nat
  staticAccountKeys : List Nat
  recentBlockhash : String
  isLegacy : Bool
  deriving DecidableEq

/-- A parsed wire transaction before the deserializer constructor
check: the signature section (one byte list per slot) and the message. -/
structure WireTx where
  signatures : List (List Nat)
  message : VMessage
  deriving DecidableEq

/-- The result of VersionedTransaction.deserialize: same content, but
only constructed when the deserializer invariant holds. -/
structure VersionedTx where
  signatures : List (List Nat)
  message : VMessage
  deriving DecidableEq

/-- Model of VersionedTransaction.deserialize (web3.js): parses the
signature section and the message, then the VersionedTransaction
constructor asserts that the signature count equals the header required
signature count, throwing otherwise.  sponsor.ts calls this on every
request (line 36) before anything else, for both variants. -/
def deserializeVersioned (w : WireTx) : Except String VersionedTx :=
  if w.signatures.length = w.message.numRequiredSignatures then
    Except.ok ⟨w.signatures, w.message⟩
  else
    Except.error "Expected signatures length to be equal to the number of required signatures"

/-- The all-zero 64-byte placeholder signature of the wire format. -/
def defaultSignature : List Nat := List.replicate 64 0

/-- One legacy signature slot after Transaction.populate: an optional
account-key pointer and an optional signature (the populate step turns
an all-zero wire signature into null). -/
structure SigPubkeyPair where
  publicKey : Option Nat
  signature : Option (List Nat)
  deriving DecidableEq

/-- A legacy Transaction as produced by Transaction.from: fee payer
(set from account key 0 when the required-signature count is positive),
blockhash, and the signature slot list. -/
structure LegacyTx where
  feePayer : Option Nat
  recentBlockhash : String
  signatures : List SigPubkeyPair
  deriving DecidableEq

/-- Model of Transaction.from(buffer) (web3.js populate): slot i is
paired with account key i; a wire signature equal to the all-zero
default becomes null; the fee payer is account key 0 when the header
declares at least one required signature, otherwise left unset. -/
def transactionFrom (w : WireTx) : LegacyTx :=
  { feePayer :=
      if w.message.numRequiredSignatures > 0 then w.message.staticAccountKeys.head? else none
    recentBlockhash := w.message.recentBlockhash
    signatures := w.signatures.enum.map fun p =>
      { publicKey := w.message.staticAccountKeys[p.1]?
        signature := if p.2 = defaultSignature then none else some p.2 } }

/-- The returnSignature configuration variants recognized by the
server (config.json): allowAll returns the signed transaction without
any further gate; reCaptcha gates the return behind an external
anti-abuse score check. -/
inductive ReturnSignatureConfigField where
  | allowAll
  | reCaptcha (minScore : Nat)
  deriving DecidableEq

/-- The request-independent environment of one run: the custodial
identity, the policy configuration, and the oracle answers of the
external collaborators (RPC blockhash validity, instruction policy
hook, simulation outcome, submission outcome, anti-spam score check)
together with the signing primitive of the custodial key. -/
structure Env where
  identity : Nat
  maxSignatures : Nat
  returnSignature : Option ReturnSignatureConfigField
  blockhashValid : String → Bool
  instructionsErr : Option String
  simulateErr : Option String
  sendErr : Option String
  antiSpamPass : Bool
  signBytes : VMessage → List Nat

/-- Model of the external base58 codec on byte lists: an injective
byte-to-string encoding. -/
def encode58 (bs : List Nat) : String :=
  String.intercalate "," (bs.map toString)

/-- Modelled from the spec: isReturnedSignatureAllowed lives in
packages/server/src, which is not under src/.  Per the dispatch
resolver specification, allowAll means sign-and-return with no further
gate, while the scored-challenge variant delegates to an external
anti-abuse score check with a configured minimum threshold. -/
def isReturnedSignatureAllowed (env : Env) : ReturnSignatureConfigField → Bool
  | .allowAll => true
  | .reCaptcha _ => env.antiSpamPass

/-- Test used by the handler on raw signature bytes:
sig.every(byte => byte === 0). -/
def allZeroBytes (s : List Nat) : Bool :=
  s.all (fun b => b == 0)

/-- One legacy secondary slot counts as unsigned when its signature is
null or its bytes are all zero (sponsor.ts lines 90-91). -/
def legacySlotUnsigned (sig : SigPubkeyPair) : Bool :=
  match sig.signature with
  | none => true
  | some bs => allZeroBytes bs

/-- The legacy partially-signed loop (sponsor.ts lines 95-98): walk the
secondary slots in order; the first slot without a public key aborts
with "missing public key", the first slot without a signature aborts
with "missing signature". -/
def checkSecondaryLegacy : List SigPubkeyPair → Option String
  | [] => none
  | s :: rest =>
    if s.publicKey.isNone then some "missing public key"
    else if s.signature.isNone then some "missing signature"
    else checkSecondaryLegacy rest

/-- Modelled from the spec: simulateRawTransaction lives in
packages/core (octane-core), which is not under src/.  Per the
co-signer and simulator specification, a simulation failure aborts the
request with "simulation failed: <details>" and performs no
submission; the dry-run outcome is the simulateErr oracle. -/
def simulateRawTransactionErr (env : Env) : Option String :=
  env.simulateErr.map (fun d => "simulation failed: " ++ d)

/-- The tail shared verbatim by both branches of sponsor.ts
(lines 113-131 and 208-226): when returnSignature is configured
(neither undefined nor null), gate on the anti-spam check and return
the signature without submitting; otherwise submit via
sendAndConfirmRawTransaction and report the signature on success. -/
def dispatch (env : Env) (events : List Event) (signature : String) :
    HttpResponse × List Event :=
  match env.returnSignature with
  | some rs =>
    if isReturnedSignatureAllowed env rs then
      (⟨200, okBody signature⟩, events)
    else
      (⟨400, errBody "anti-spam check failed"⟩, events)
  | none =>
    match env.sendErr with
    | some m => (⟨400, errBody m⟩, events ++ [Event.rpcSubmit])
    | none => (⟨200, okBody signature⟩, events ++ [Event.rpcSubmit])

/-- The legacy branch of sponsor.ts (lines 53-131), operating on the
re-decoded legacy transaction.  msg is the decoded message of the same
buffer, used by the signing primitive.  Checks in source order: fee
payer identity, blockhash presence, blockhash validity (an RPC call),
signature presence, signature count bound, primary slot key and
emptiness, secondary slot consistency, instruction policy hook; then
co-sign, serialize, simulate, and dispatch. -/
def legacyBranch (env : Env) (msg : VMessage) (ltx : LegacyTx) :
    HttpResponse × List Event :=
  if ¬ (ltx.feePayer = some env.identity) then
    (⟨400, errBody "invalid fee payer"⟩, [])
  else if ltx.recentBlockhash = "" then
    (⟨400, errBody "missing recent blockhash"⟩, [])
  else if ¬ env.blockhashValid ltx.recentBlockhash then
    (⟨400, errBody "blockhash not found or expired"⟩, [Event.rpcBlockhashCheck])
  else if ltx.signatures.length = 0 then
    (⟨400, errBody "no signatures"⟩, [Event.rpcBlockhashCheck])
  else if ltx.signatures.length > env.maxSignatures then
    (⟨400, errBody "too many signatures"⟩, [Event.rpcBlockhashCheck])
  else
    match ltx.signatures with
    | [] => (⟨400, errBody "no signatures"⟩, [Event.rpcBlockhashCheck])
    | primary :: secondary =>
      match primary.publicKey with
      | none =>
        (⟨400, errBody "Cannot read properties of undefined (reading equals)"⟩,
          [Event.rpcBlockhashCheck])
      | some pk =>
        if ¬ (pk = env.identity) then
          (⟨400, errBody "invalid fee payer pubkey"⟩, [Event.rpcBlockhashCheck])
        else if primary.signature.isSome then
          (⟨400, errBody "invalid fee payer signature"⟩, [Event.rpcBlockhashCheck])
        else
          match
            (if secondary.all legacySlotUnsigned then none
             else checkSecondaryLegacy secondary) with
          | some m => (⟨400, errBody m⟩, [Event.rpcBlockhashCheck])
          | none =>
            match env.instructionsErr with
            | some m => (⟨400, errBody m⟩, [Event.rpcBlockhashCheck])
            | none =>
              match simulateRawTransactionErr env with
              | some m =>
                (⟨400, errBody m⟩,
                  [Event.rpcBlockhashCheck, Event.sign, Event.rpcSimulate])
              | none =>
                dispatch env
                  [Event.rpcBlockhashCheck, Event.sign, Event.rpcSimulate]
                  (encode58 (env.signBytes msg))

/-- Model of VersionedTransaction.sign with the custodial keypair for
a transaction whose fee payer is account key 0: the slot at index 0 is
overwritten with the custodial signature over the message bytes. -/
def v0Sign (env : Env) (tx : VersionedTx) : VersionedTx :=
  { tx with signatures := tx.signatures.set 0 (env.signBytes tx.message) }

/-- The versioned branch of sponsor.ts (lines 133-226).  Checks in
source order: fee payer identity (account key 0), blockhash presence,
blockhash validity (an RPC call), signature count bound, signature
count mismatch, then the fee payer slot rule (count 1 tolerates a
populated slot, otherwise the slot must be all zero) and the secondary
all-or-nothing rule; then co-sign, simulate, and dispatch. -/
def v0Branch (env : Env) (tx : VersionedTx) : HttpResponse × List Event :=
  match tx.message.staticAccountKeys.head? with
  | none =>
    (⟨400, errBody "Cannot read properties of undefined (reading equals)"⟩, [])
  | some feePayer =>
    if ¬ (feePayer = env.identity) then
      (⟨400, errBody "invalid fee payer"⟩, [])
    else if tx.message.recentBlockhash = "" then
      (⟨400, errBody "missing recent blockhash"⟩, [])
    else if ¬ env.blockhashValid tx.message.recentBlockhash then
      (⟨400, errBody "blockhash not found or expired"⟩, [Event.rpcBlockhashCheck])
    else if tx.message.numRequiredSignatures > env.maxSignatures then
      (⟨400, errBody "too many signatures"⟩, [Event.rpcBlockhashCheck])
    else if ¬ (tx.signatures.length = tx.message.numRequiredSignatures) then
      (⟨400, errBody "signature count mismatch"⟩, [Event.rpcBlockhashCheck])
    else
      match tx.signatures.head? with
      | none =>
        (⟨400, errBody "Cannot read properties of undefined (reading every)"⟩,
          [Event.rpcBlockhashCheck])
      | some firstSig =>
        match
          (if tx.message.numRequiredSignatures = 1 then none
           else if ¬ allZeroBytes firstSig then some "invalid fee payer signature"
           else if ¬ (tx.signatures.drop 1).all allZeroBytes then
             (if (tx.signatures.drop 1).any allZeroBytes then
                some "missing required signature"
              else none)
           else none) with
        | some m => (⟨400, errBody m⟩, [Event.rpcBlockhashCheck])
        | none =>
          match env.simulateErr with
          | some d =>
            (⟨400, errBody ("simulation failed: " ++ d)⟩,
              [Event.rpcBlockhashCheck, Event.sign, Event.rpcSimulate])
          | none =>
            dispatch env
              [Event.rpcBlockhashCheck, Event.sign, Event.rpcSimulate]
              (encode58 ((v0Sign env tx).signatures.headD []))

/-- The duplicate-suppression cache: entries pair a message digest
(stood for by the message value itself, since the digest of the
message bytes is injective on messages) with an expiry time. -/
abbrev CacheState := List (VMessage × Nat)

/-- Modelled from the spec: the cache TTL, five seconds by default. -/
def TTLseconds : Nat := 5

/-- Modelled from the spec: the duplicate cache store lives in
packages/server/src, which is not under src/.  A key set at time t
stays visible to get until t plus the TTL, after which the entry
expires passively. -/
def cacheGet (c : CacheState) (now : Nat) (k : VMessage) : Bool :=
  c.any fun e => e.1 == k && decide (now < e.2)

/-- Modelled from the spec: setting a key records it with an expiry of
now plus the TTL. -/
def cacheSet (c : CacheState) (now : Nat) (k : VMessage) : CacheState :=
  (k, now + TTLseconds) :: c

/-- The request body as seen by the handler: the transaction field is
missing or not a string; or it is a string that is not valid base58
(base58.decode throws, sponsor.ts line 31, outside both try blocks);
or its decoded bytes fail VersionedTransaction.deserialize with some
message (thrown inside the first try, caught at line 37); or it parses
to a wire transaction. -/
inductive ReqBody where
  | noTx
  | badBase58
  | malformed (msg : String)
  | wire (w : WireTx)

/-- The framework-level reply when an exception escapes the handler
uncaught: the server answers 500 with a generic error page that is not
a JSON object of the handler, represented here by an empty body. -/
def uncaughtErrorResponse : HttpResponse := ⟨500, []⟩

/-- The observable outcome of one request: the HTTP response, the
cache state afterwards, and the ordered side-effect trace. -/
structure RunResult where
  resp : HttpResponse
  cache : CacheState
  events : List Event

/-- The part of the handler after the duplicate lock is taken: branch
on the variant discriminant (sponsor.ts line 53). -/
def afterLock (env : Env) (w : WireTx) (tx : VersionedTx) :
    HttpResponse × List Event :=
  if tx.message.isLegacy then legacyBranch env w.message (transactionFrom w)
  else v0Branch env tx

/-- The whole handler of sponsor.ts for one request at time now:
reject a missing transaction field, base58-decode the string, decode
the bytes (both variants through VersionedTransaction.deserialize),
consult and take the duplicate lock keyed by the digest of the message
bytes, then run the variant branch.  base58.decode (line 31) sits
outside both try blocks, so a string that is not valid base58 raises
an uncaught exception and the framework answers 500; every error
thrown after that point is caught and mapped to a 400 response with
the error message.  The duplicate rejection leaves the cache
unchanged; every run that passes the duplicate check records the lock
before any validation, and no failure path removes it. -/
def runSponsor (env : Env) (c : CacheState) (now : Nat) (req : ReqBody) :
    RunResult :=
  match req with
  | .noTx => ⟨⟨400, errBody "request should contain transaction"⟩, c, []⟩
  | .badBase58 => ⟨uncaughtErrorResponse, c, []⟩
  | .malformed m => ⟨⟨400, errBody m⟩, c, []⟩
  | .wire w =>
    match deserializeVersioned w with
    | .error m => ⟨⟨400, errBody m⟩, c, []⟩
    | .ok tx =>
      if cacheGet c now tx.message then
        ⟨⟨400, errBody "duplicate transaction"⟩, c, []⟩
      else
        ⟨(afterLock env w tx).1, cacheSet c now tx.message, (afterLock env w tx).2⟩

/-! Concrete environments and wire transactions used as evaluation
points for the theorems below. -/

/-- A benign environment: identity 1, at most two signatures, submit
mode, all oracles succeed. -/
def envA : Env :=
  { identity := 1, maxSignatures := 2, returnSignature := none,
    blockhashValid := fun _ => true, instructionsErr := none,
    simulateErr := none, sendErr := none, antiSpamPass := true,
    signBytes := fun _ => List.replicate 64 7 }

/-- The benign environment with a three-signature bound. -/
def envB : Env := { envA with maxSignatures := 3 }

/-- The benign environment in sign-and-return mode with the allowAll
variant. -/
def envAllow : Env := { envA with returnSignature := some .allowAll }

/-- A populated (nonzero) 64-byte signature. -/
def nine64 : List Nat := List.replicate 64 9

/-- A valid unsigned single-signer versioned transaction whose fee
payer is the custodial identity. -/
def wireOkV0 : WireTx := ⟨[defaultSignature], ⟨1, [1], "bh", false⟩⟩

/-- A valid unsigned single-signer legacy transaction whose fee payer
is the custodial identity. -/
def wireOkLegacy : WireTx := ⟨[defaultSignature], ⟨1, [1], "bh", true⟩⟩

/-- A versioned transaction whose account key 0 is not the custodial
identity. -/
def wireBadPayerV0 : WireTx := ⟨[defaultSignature], ⟨1, [2], "bh", false⟩⟩

/-- A legacy single-signer transaction with a populated fee payer
slot. -/
def wireC4Legacy : WireTx := ⟨[nine64], ⟨1, [1], "bh", true⟩⟩

/-- A versioned single-signer transaction with a populated fee payer
slot. -/
def wireC4V0 : WireTx := ⟨[nine64], ⟨1, [1], "bh", false⟩⟩

/-- A legacy three-signer transaction in a mixed secondary state: the
first secondary slot is populated, the second is empty. -/
def wireC5Legacy : WireTx :=
  ⟨[defaultSignature, nine64, defaultSignature], ⟨3, [1, 2, 3], "bh", true⟩⟩

/-- A versioned three-signer transaction in a mixed secondary state. -/
def wireC5V0 : WireTx :=
  ⟨[defaultSignature, nine64, defaultSignature], ⟨3, [1, 2, 3], "bh", false⟩⟩

/-- A versioned transaction declaring three required signatures, above
the two-signature bound of envA. -/
def wireC6V0 : WireTx :=
  ⟨[defaultSignature, defaultSignature, defaultSignature], ⟨3, [1, 2, 3], "bh", false⟩⟩

/-- A versioned wire whose signature section is shorter than the
declared required-signature count. -/
def wireMismatch : WireTx := ⟨[defaultSignature], ⟨2, [1, 2], "bh", false⟩⟩

/-- A legacy transaction declaring three required signatures, above
the two-signature bound of envA. -/
def wireC6Legacy : WireTx :=
  ⟨[defaultSignature, defaultSignature, defaultSignature], ⟨3, [1, 2, 3], "bh", true⟩⟩

/-! Helper lemmas shared by the claim theorems. -/

/-- The four possible side-effect traces of either branch: rejected
before the blockhash query, rejected at or after it, signed and
simulated without submission, or the full trace ending in
submission. -/
def TraceShapes (evs : List Event) : Prop :=
  evs = [] ∨ evs = [Event.rpcBlockhashCheck] ∨
    evs = [Event.rpcBlockhashCheck, Event.sign, Event.rpcSimulate] ∨
    evs = [Event.rpcBlockhashCheck, Event.sign, Event.rpcSimulate, Event.rpcSubmit]

/-- Every response body produced by the pipeline is a two-field ok or
error object, with the matching status code. -/
def RespShapes (r : HttpResponse) : Prop :=
  (r.status = 200 ∧ ∃ s, r.body = okBody s) ∨
    (r.status = 400 ∧ ∃ m, r.body = errBody m)

theorem dispatch_events (env : Env) (evs : List Event) (s : String) :
    (dispatch env evs s).2 = evs ∨ (dispatch env evs s).2 = evs ++ [Event.rpcSubmit] := by
  unfold dispatch
  split
  · split <;> simp
  · split <;> simp

theorem dispatch_resp (env : Env) (evs : List Event) (s : String) :
    RespShapes (dispatch env evs s).1 := by
  unfold dispatch RespShapes
  split
  · split <;> simp
  · split <;> simp

theorem legacyBranch_events (env : Env) (msg : VMessage) (ltx : LegacyTx) :
    TraceShapes (legacyBranch env msg ltx).2 := by
  unfold legacyBranch TraceShapes
  split
  · simp
  · split
    · simp
    · split
      · simp
      · split
        · simp
        · split
          · simp
          · split
            · simp
            · split
              · simp
              · split
                · simp
                · split
                  · simp
                  · split
                    · simp
                    · split
                      · simp
                      · split
                        · simp
                        · rcases dispatch_events env
                            [Event.rpcBlockhashCheck, Event.sign, Event.rpcSimulate]
                            (encode58 (env.signBytes msg)) with h | h <;> simp [h]

theorem legacyBranch_resp (env : Env) (msg : VMessage) (ltx : LegacyTx) :
    RespShapes (legacyBranch env msg ltx).1 := by
  unfold legacyBranch
  split
  · simp [RespShapes]
  · split
    · simp [RespShapes]
    · split
      · simp [RespShapes]
      · split
        · simp [RespShapes]
        · split
          · simp [RespShapes]
          · split
            · simp [RespShapes]
            · split
              · simp [RespShapes]
              · split
                · simp [RespShapes]
                · split
                  · simp [RespShapes]
                  · split
                    · simp [RespShapes]
                    · split
                      · simp [RespShapes]
                      · split
                        · simp [RespShapes]
                        · exact dispatch_resp env _ _

theorem dispatch_traceShapes (env : Env) (s : String) :
    TraceShapes (dispatch env [Event.rpcBlockhashCheck, Event.sign, Event.rpcSimulate] s).2 := by
  rcases dispatch_events env [Event.rpcBlockhashCheck, Event.sign, Event.rpcSimulate] s with
    h | h <;> simp [TraceShapes, h]

theorem v0Branch_events (env : Env) (tx : VersionedTx) :
    TraceShapes (v0Branch env tx).2 := by
  unfold v0Branch
  repeat' split
  all_goals first | exact dispatch_traceShapes env _ | simp [TraceShapes]

theorem v0Branch_resp (env : Env) (tx : VersionedTx) :
    RespShapes (v0Branch env tx).1 := by
  unfold v0Branch
  repeat' split
  all_goals first | exact dispatch_resp env _ _ | simp [RespShapes]

theorem legacyBranch_sim (env : Env) (msg : VMessage) (ltx : LegacyTx) (d : String)
    (hd : env.simulateErr = some d)
    (hm : Event.rpcSimulate ∈ (legacyBranch env msg ltx).2) :
    (legacyBranch env msg ltx).1 = ⟨400, errBody ("simulation failed: " ++ d)⟩ ∧
      Event.rpcSubmit ∉ (legacyBranch env msg ltx).2 := by
  have hs : simulateRawTransactionErr env = some ("simulation failed: " ++ d) := by
    simp [simulateRawTransactionErr, hd]
  revert hm
  unfold legacyBranch
  repeat' split
  all_goals intro hm
  all_goals simp_all

theorem v0Branch_sim (env : Env) (tx : VersionedTx) (d : String)
    (hd : env.simulateErr = some d)
    (hm : Event.rpcSimulate ∈ (v0Branch env tx).2) :
    (v0Branch env tx).1 = ⟨400, errBody ("simulation failed: " ++ d)⟩ ∧
      Event.rpcSubmit ∉ (v0Branch env tx).2 := by
  revert hm
  unfold v0Branch
  repeat' split
  all_goals intro hm
  all_goals simp_all

theorem afterLock_events (env : Env) (w : WireTx) (tx : VersionedTx) :
    TraceShapes (afterLock env w tx).2 := by
  unfold afterLock
  split
  · exact legacyBranch_events env w.message (transactionFrom w)
  · exact v0Branch_events env tx

theorem afterLock_resp (env : Env) (w : WireTx) (tx : VersionedTx) :
    RespShapes (afterLock env w tx).1 := by
  unfold afterLock
  split
  · exact legacyBranch_resp env w.message (transactionFrom w)
  · exact v0Branch_resp env tx

theorem afterLock_sim (env : Env) (w : WireTx) (tx : VersionedTx) (d : String)
    (hd : env.simulateErr = some d)
    (hm : Event.rpcSimulate ∈ (afterLock env w tx).2) :
    (afterLock env w tx).1 = ⟨400, errBody ("simulation failed: " ++ d)⟩ ∧
      Event.rpcSubmit ∉ (afterLock env w tx).2 := by
  revert hm
  unfold afterLock
  split
  · exact legacyBranch_sim env w.message (transactionFrom w) d hd
  · exact v0Branch_sim env tx d hd

theorem cacheGet_mono (c : CacheState) (t1 t2 : Nat) (k : VMessage)
    (h12 : t1 ≤ t2) (h : cacheGet c t1 k = false) : cacheGet c t2 k = false := by
  unfold cacheGet at h ⊢
  rw [List.any_eq_false] at h ⊢
  intro e he
  have h1 := h e he
  cases hek : (e.1 == k) <;> simp [hek] at h1 ⊢
  omega

theorem cacheGet_set_live (c : CacheState) (t1 t2 : Nat) (k : VMessage)
    (h : t2 < t1 + TTLseconds) : cacheGet (cacheSet c t1 k) t2 k = true := by
  unfold cacheGet cacheSet
  simp [List.any_cons, h]

theorem cacheGet_set_dead (c : CacheState) (t1 t2 : Nat) (k k2 : VMessage)
    (h : ¬ t2 < t1 + TTLseconds) (hc : cacheGet c t2 k2 = false) :
    cacheGet (cacheSet c t1 k) t2 k2 = false := by
  unfold cacheGet cacheSet at *
  simp only [List.any_cons, Bool.or_eq_false_iff]
  refine ⟨?_, hc⟩
  cases hek : (k == k2) <;> simp [hek]
  omega

theorem runSponsor_fresh (env : Env) (c : CacheState) (now : Nat) (w : WireTx)
    (hlen : w.signatures.length = w.message.numRequiredSignatures)
    (hfresh : cacheGet c now w.message = false) :
    runSponsor env c now (.wire w) =
      ⟨(afterLock env w ⟨w.signatures, w.message⟩).1,
        cacheSet c now w.message,
        (afterLock env w ⟨w.signatures, w.message⟩).2⟩ := by
  unfold runSponsor deserializeVersioned
  simp [hlen, hfresh]

theorem runSponsor_dup (env : Env) (c : CacheState) (now : Nat) (w : WireTx)
    (hlen : w.signatures.length = w.message.numRequiredSignatures)
    (hdup : cacheGet c now w.message = true) :
    runSponsor env c now (.wire w) =
      ⟨⟨400, errBody "duplicate transaction"⟩, c, []⟩ := by
  unfold runSponsor deserializeVersioned
  simp [hlen, hdup]

theorem runSponsor_events (env : Env) (c : CacheState) (now : Nat) (req : ReqBody) :
    TraceShapes (runSponsor env c now req).events := by
  unfold runSponsor
  repeat' split
  all_goals first | exact afterLock_events env _ _ | simp [TraceShapes]

theorem runSponsor_resp (env : Env) (c : CacheState) (now : Nat) (req : ReqBody)
    (h : req ≠ ReqBody.badBase58) :
    RespShapes (runSponsor env c now req).resp := by
  revert h
  unfold runSponsor
  repeat' split
  all_goals intro h
  all_goals first
    | exact afterLock_resp env _ _
    | exact absurd rfl h
    | simp [RespShapes]

theorem runSponsor_sim (env : Env) (c : CacheState) (now : Nat) (req : ReqBody)
    (d : String) (hd : env.simulateErr = some d)
    (hm : Event.rpcSimulate ∈ (runSponsor env c now req).events) :
    (runSponsor env c now req).resp = ⟨400, errBody ("simulation failed: " ++ d)⟩ ∧
      Event.rpcSubmit ∉ (runSponsor env c now req).events := by
  revert hm
  unfold runSponsor
  repeat' split
  all_goals first | exact afterLock_sim env _ _ d hd | (intro hm; simp_all)

theorem checkSecondaryLegacy_missing (l : List SigPubkeyPair)
    (hpk : ∀ p ∈ l, p.publicKey.isSome = true)
    (hmiss : ∃ p ∈ l, p.signature = none) :
    checkSecondaryLegacy l = some "missing signature" := by
  induction l with
  | nil => simp at hmiss
  | cons s rest ih =>
    have hs : s.publicKey.isSome = true := hpk s (by simp)
    unfold checkSecondaryLegacy
    rw [if_neg (by cases ho : s.publicKey <;> simp_all)]
    by_cases hn : s.signature.isNone
    · rw [if_pos hn]
    · rw [if_neg hn]
      refine ih (fun p hp => hpk p (by simp [hp])) ?_
      rcases hmiss with ⟨p, hp, hpn⟩
      rcases List.mem_cons.mp hp with h | h
      · exact absurd (show s.signature.isNone = true by rw [← h, hpn]; rfl) hn
      · exact ⟨p, h, hpn⟩

theorem legacyBranch_feePayer (env : Env) (msg : VMessage) (ltx : LegacyTx)
    (h : ¬ ltx.feePayer = some env.identity) :
    legacyBranch env msg ltx = (⟨400, errBody "invalid fee payer"⟩, []) := by
  unfold legacyBranch
  rw [if_pos h]

theorem v0Branch_feePayer (env : Env) (tx : VersionedTx) (k : Nat)
    (hk : tx.message.staticAccountKeys.head? = some k)
    (hne : ¬ k = env.identity) :
    v0Branch env tx = (⟨400, errBody "invalid fee payer"⟩, []) := by
  unfold v0Branch
  simp [hk, hne]

/-- Claim C1: for every decoded transaction message whose account key
at index 0 differs from the custodial identity, the pipeline (given
the digest is not already locked) rejects with "invalid fee payer" and
performs no signing, no simulation and no submission, in both the
legacy and the versioned variant. -/
theorem sponsor_foreign_fee_payer_rejected (env : Env) (c : CacheState) (now : Nat)
    (w : WireTx) (k : Nat)
    (hlen : w.signatures.length = w.message.numRequiredSignatures)
    (hfresh : cacheGet c now w.message = false)
    (hk : w.message.staticAccountKeys.head? = some k)
    (hne : k ≠ env.identity) :
    (runSponsor env c now (.wire w)).resp = ⟨400, errBody "invalid fee payer"⟩ ∧
    Event.sign ∉ (runSponsor env c now (.wire w)).events ∧
    Event.rpcSimulate ∉ (runSponsor env c now (.wire w)).events ∧
    Event.rpcSubmit ∉ (runSponsor env c now (.wire w)).events := by
  rw [runSponsor_fresh env c now w hlen hfresh]
  have hfp : ¬ (transactionFrom w).feePayer = some env.identity := by
    unfold transactionFrom
    split <;> simp [hk, hne]
  unfold afterLock
  split
  · rw [legacyBranch_feePayer env w.message (transactionFrom w) hfp]
    exact ⟨rfl, by simp, by simp, by simp⟩
  · rw [v0Branch_feePayer env ⟨w.signatures, w.message⟩ k hk hne]
    exact ⟨rfl, by simp, by simp, by simp⟩

/-- Witness for C1: a concrete versioned transaction whose account key
0 is 2 while the custodial identity is 1. -/
theorem sponsor_foreign_fee_payer_rejected_witness :
    (runSponsor envA [] 0 (.wire wireBadPayerV0)).resp = ⟨400, errBody "invalid fee payer"⟩ ∧
    Event.sign ∉ (runSponsor envA [] 0 (.wire wireBadPayerV0)).events ∧
    Event.rpcSimulate ∉ (runSponsor envA [] 0 (.wire wireBadPayerV0)).events ∧
    Event.rpcSubmit ∉ (runSponsor envA [] 0 (.wire wireBadPayerV0)).events :=
  sponsor_foreign_fee_payer_rejected envA [] 0 wireBadPayerV0 2
    (by decide) (by decide) (by decide) (by decide)

/-- Claim C3: simulation is performed before any submission: reaching
the co-signing stage implies the simulation call happens; any
submission is preceded by a simulation call; and a simulation error
aborts the request with "simulation failed: <details>" and no
submission occurs. -/
theorem sponsor_simulation_before_submission (env : Env) (c : CacheState)
    (now : Nat) (req : ReqBody) :
    (Event.sign ∈ (runSponsor env c now req).events →
       Event.rpcSimulate ∈ (runSponsor env c now req).events)
  ∧ (Event.rpcSubmit ∈ (runSponsor env c now req).events →
       ∃ l1 l2, (runSponsor env c now req).events = l1 ++ Event.rpcSimulate :: l2 ∧
         Event.rpcSubmit ∈ l2)
  ∧ (∀ d, env.simulateErr = some d →
       Event.rpcSimulate ∈ (runSponsor env c now req).events →
       (runSponsor env c now req).resp = ⟨400, errBody ("simulation failed: " ++ d)⟩ ∧
       Event.rpcSubmit ∉ (runSponsor env c now req).events) := by
  have h := runSponsor_events env c now req
  unfold TraceShapes at h
  refine ⟨?_, ?_, ?_⟩
  · rcases h with h | h | h | h <;> rw [h] <;> simp
  · rcases h with h | h | h | h <;> rw [h] <;> intro hm
    · simp at hm
    · simp at hm
    · simp at hm
    · exact ⟨[Event.rpcBlockhashCheck, Event.sign], [Event.rpcSubmit], by simp, by simp⟩
  · intro d hd hm
    exact runSponsor_sim env c now req d hd hm

/-- Witness for C3: a concrete submitted run in which the simulation
call precedes the submission call. -/
theorem sponsor_simulation_before_submission_witness :
    ∃ l1 l2, (runSponsor envA [] 0 (.wire wireOkV0)).events =
        l1 ++ Event.rpcSimulate :: l2 ∧ Event.rpcSubmit ∈ l2 :=
  (sponsor_simulation_before_submission envA [] 0 (.wire wireOkV0)).2.1 (by decide)

/-- Counterexample for C8: a request whose transaction field is a
string but not valid base58 makes base58.decode (sponsor.ts line 31,
outside both try blocks) throw; the exception escapes the handler and
the framework answers 500 with a body that is not the two-field JSON
object of the claim. -/
theorem sponsor_response_shape_cex :
    (runSponsor envA [] 0 ReqBody.badBase58).resp.status = 500 ∧
    (runSponsor envA [] 0 ReqBody.badBase58).resp.status ≠ 200 ∧
    (runSponsor envA [] 0 ReqBody.badBase58).resp.status ≠ 400 ∧
    (runSponsor envA [] 0 ReqBody.badBase58).resp.body.length ≠ 2 := by
  decide

/-- Claim C8 (amended): for every request whose transaction field
base58-decodes, the response body is a two-field JSON object, status
"ok" with a signature string under HTTP 200 or status "error" with a
message string under HTTP 400; a transaction string that is not valid
base58 instead escapes the handler uncaught and yields the framework
500 error response, which is not such an object. -/
theorem sponsor_response_shape (env : Env) (c : CacheState) (now : Nat) (req : ReqBody) :
    (req ≠ ReqBody.badBase58 →
      (((runSponsor env c now req).resp.status = 200 ∧
          ∃ s, (runSponsor env c now req).resp.body = okBody s) ∨
       ((runSponsor env c now req).resp.status = 400 ∧
          ∃ m, (runSponsor env c now req).resp.body = errBody m)) ∧
      (runSponsor env c now req).resp.body.length = 2)
  ∧ (req = ReqBody.badBase58 →
      (runSponsor env c now req).resp = uncaughtErrorResponse ∧
      (runSponsor env c now req).resp.body.length = 0) := by
  constructor
  · intro hreq
    have h := runSponsor_resp env c now req hreq
    unfold RespShapes at h
    refine ⟨h, ?_⟩
    rcases h with ⟨_, s, hs⟩ | ⟨_, m, hm⟩
    · simp [hs, okBody]
    · simp [hm, errBody]
  · intro hreq
    rw [hreq]
    exact ⟨rfl, rfl⟩

/-- Witness for C8: a concrete well-decoded request produces the
two-field ok response under HTTP 200. -/
theorem sponsor_response_shape_witness :
    (((runSponsor envA [] 0 (.wire wireOkV0)).resp.status = 200 ∧
        ∃ s, (runSponsor envA [] 0 (.wire wireOkV0)).resp.body = okBody s) ∨
     ((runSponsor envA [] 0 (.wire wireOkV0)).resp.status = 400 ∧
        ∃ m, (runSponsor envA [] 0 (.wire wireOkV0)).resp.body = errBody m)) ∧
    (runSponsor envA [] 0 (.wire wireOkV0)).resp.body.length = 2 :=
  (sponsor_response_shape envA [] 0 (.wire wireOkV0)).1 (by simp)

/-- Claim C9: a transaction admitted past validation (one that reaches
the co-signing step) has as many signature slots as the declared
required-signature count, and a wire transaction violating that
equality is rejected at decode. -/
theorem sponsor_slot_count_invariant (env : Env) (c : CacheState) (now : Nat) (w : WireTx) :
    (Event.sign ∈ (runSponsor env c now (.wire w)).events →
       w.signatures.length = w.message.numRequiredSignatures)
  ∧ (w.signatures.length ≠ w.message.numRequiredSignatures →
       (runSponsor env c now (.wire w)).resp =
         ⟨400, errBody "Expected signatures length to be equal to the number of required signatures"⟩ ∧
       (runSponsor env c now (.wire w)).events = []) := by
  by_cases hlen : w.signatures.length = w.message.numRequiredSignatures
  · exact ⟨fun _ => hlen, fun hne => absurd hlen hne⟩
  · have hrun : runSponsor env c now (.wire w) =
        ⟨⟨400, errBody "Expected signatures length to be equal to the number of required signatures"⟩,
          c, []⟩ := by
      unfold runSponsor deserializeVersioned
      simp [hlen]
    rw [hrun]
    exact ⟨by intro hm; simp at hm, fun _ => ⟨rfl, rfl⟩⟩

/-- Witness for C9: a wire with one signature slot but a declared
count of two is rejected at decode with the deserializer message. -/
theorem sponsor_slot_count_invariant_witness :
    (runSponsor envA [] 0 (.wire wireMismatch)).resp =
      ⟨400, errBody "Expected signatures length to be equal to the number of required signatures"⟩ ∧
    (runSponsor envA [] 0 (.wire wireMismatch)).events = [] :=
  (sponsor_slot_count_invariant envA [] 0 wireMismatch).2 (by decide)

/-- Claim C2: at most one request per message digest is admitted per
TTL window.  After a first admitted request at time t1, a second
request with the same message bytes (whatever its signatures) at time
t2 inside the TTL window is rejected with "duplicate transaction" and
triggers no signing and no submission; at or after the window end it
is evaluated exactly like a fresh request. -/
theorem sponsor_at_most_one_admission_per_ttl (env : Env) (c : CacheState)
    (t1 t2 : Nat) (w w2 : WireTx)
    (hlen : w.signatures.length = w.message.numRequiredSignatures)
    (hlen2 : w2.signatures.length = w2.message.numRequiredSignatures)
    (hsame : w2.message = w.message)
    (hfresh : cacheGet c t1 w.message = false)
    (hadm : (runSponsor env c t1 (.wire w)).resp.status = 200) :
    (t1 ≤ t2 → t2 < t1 + TTLseconds →
       (runSponsor env (runSponsor env c t1 (.wire w)).cache t2 (.wire w2)).resp =
           ⟨400, errBody "duplicate transaction"⟩ ∧
       Event.rpcSubmit ∉
         (runSponsor env (runSponsor env c t1 (.wire w)).cache t2 (.wire w2)).events ∧
       Event.sign ∉
         (runSponsor env (runSponsor env c t1 (.wire w)).cache t2 (.wire w2)).events)
  ∧ (t1 + TTLseconds ≤ t2 →
       (runSponsor env (runSponsor env c t1 (.wire w)).cache t2 (.wire w2)).resp =
           (runSponsor env [] t2 (.wire w2)).resp ∧
       (runSponsor env (runSponsor env c t1 (.wire w)).cache t2 (.wire w2)).events =
           (runSponsor env [] t2 (.wire w2)).events) := by
  have hcache : (runSponsor env c t1 (.wire w)).cache = cacheSet c t1 w.message := by
    rw [runSponsor_fresh env c t1 w hlen hfresh]
  constructor
  · intro _ hlt
    have hdup : cacheGet (runSponsor env c t1 (.wire w)).cache t2 w2.message = true := by
      rw [hcache, hsame]
      exact cacheGet_set_live c t1 t2 w.message hlt
    rw [runSponsor_dup env _ t2 w2 hlen2 hdup]
    exact ⟨rfl, by simp, by simp⟩
  · intro hge
    have h1 : cacheGet c t2 w.message = false :=
      cacheGet_mono c t1 t2 w.message (le_trans (Nat.le_add_right t1 TTLseconds) hge) hfresh
    have hdead : cacheGet (runSponsor env c t1 (.wire w)).cache t2 w2.message = false := by
      rw [hcache, hsame]
      exact cacheGet_set_dead c t1 t2 w.message w.message (by omega) h1
    have hfresh2 : cacheGet ([] : CacheState) t2 w2.message = false := by rfl
    rw [runSponsor_fresh env _ t2 w2 hlen2 hdead,
      runSponsor_fresh env [] t2 w2 hlen2 hfresh2]
    exact ⟨rfl, rfl⟩

/-- Witness for C2: a concrete admitted run at time 0, with a second
identical request at time 4 rejected as a duplicate. -/
theorem sponsor_at_most_one_admission_per_ttl_witness :
    (runSponsor envA (runSponsor envA [] 0 (.wire wireOkV0)).cache 4 (.wire wireOkV0)).resp =
        ⟨400, errBody "duplicate transaction"⟩ ∧
    Event.rpcSubmit ∉
      (runSponsor envA (runSponsor envA [] 0 (.wire wireOkV0)).cache 4 (.wire wireOkV0)).events ∧
    Event.sign ∉
      (runSponsor envA (runSponsor envA [] 0 (.wire wireOkV0)).cache 4 (.wire wireOkV0)).events :=
  (sponsor_at_most_one_admission_per_ttl envA [] 0 4 wireOkV0 wireOkV0
      (by decide) (by decide) rfl (by decide) (by decide)).1 (by decide) (by decide)

/-- Claim C10: the duplicate lock is taken right after decode, before
any validation stage, and no failure path releases it: even when the
first request is itself rejected, an identical message inside the TTL
window is rejected with "duplicate transaction" and no signing and no
submission happens for it. -/
theorem sponsor_lock_set_before_validation (env : Env) (c : CacheState)
    (t1 t2 : Nat) (w w2 : WireTx)
    (hlen : w.signatures.length = w.message.numRequiredSignatures)
    (hlen2 : w2.signatures.length = w2.message.numRequiredSignatures)
    (hsame : w2.message = w.message)
    (hfresh : cacheGet c t1 w.message = false)
    (hrej : (runSponsor env c t1 (.wire w)).resp.status = 400)
    (h12 : t1 ≤ t2) (hlt : t2 < t1 + TTLseconds) :
    cacheGet (runSponsor env c t1 (.wire w)).cache t2 w.message = true ∧
    (runSponsor env (runSponsor env c t1 (.wire w)).cache t2 (.wire w2)).resp =
        ⟨400, errBody "duplicate transaction"⟩ ∧
    Event.sign ∉
      (runSponsor env (runSponsor env c t1 (.wire w)).cache t2 (.wire w2)).events ∧
    Event.rpcSubmit ∉
      (runSponsor env (runSponsor env c t1 (.wire w)).cache t2 (.wire w2)).events := by
  have hcache : (runSponsor env c t1 (.wire w)).cache = cacheSet c t1 w.message := by
    rw [runSponsor_fresh env c t1 w hlen hfresh]
  have hdup : cacheGet (runSponsor env c t1 (.wire w)).cache t2 w.message = true := by
    rw [hcache]
    exact cacheGet_set_live c t1 t2 w.message hlt
  have hdup2 : cacheGet (runSponsor env c t1 (.wire w)).cache t2 w2.message = true := by
    rw [hsame]
    exact hdup
  refine ⟨hdup, ?_⟩
  rw [runSponsor_dup env _ t2 w2 hlen2 hdup2]
  exact ⟨rfl, by simp, by simp⟩

/-- Witness for C10: a first request rejected at the fee payer check
at time 0 still locks the digest; the identical request at time 4 is
rejected as a duplicate. -/
theorem sponsor_lock_set_before_validation_witness :
    cacheGet (runSponsor envA [] 0 (.wire wireBadPayerV0)).cache 4 wireBadPayerV0.message = true ∧
    (runSponsor envA (runSponsor envA [] 0 (.wire wireBadPayerV0)).cache 4
        (.wire wireBadPayerV0)).resp = ⟨400, errBody "duplicate transaction"⟩ ∧
    Event.sign ∉ (runSponsor envA (runSponsor envA [] 0 (.wire wireBadPayerV0)).cache 4
        (.wire wireBadPayerV0)).events ∧
    Event.rpcSubmit ∉ (runSponsor envA (runSponsor envA [] 0 (.wire wireBadPayerV0)).cache 4
        (.wire wireBadPayerV0)).events :=
  sponsor_lock_set_before_validation envA [] 0 4 wireBadPayerV0 wireBadPayerV0
    (by decide) (by decide) rfl (by decide) (by decide) (by decide) (by decide)

theorem dispatch_allowAll (env : Env) (evs : List Event) (s : String)
    (h : env.returnSignature = some .allowAll) :
    dispatch env evs s = (⟨200, okBody s⟩, evs) := by
  unfold dispatch
  rw [h]
  simp [isReturnedSignatureAllowed]

theorem dispatch_submit (env : Env) (evs : List Event) (s : String)
    (hrs : env.returnSignature = none) (hsend : env.sendErr = none) :
    dispatch env evs s = (⟨200, okBody s⟩, evs ++ [Event.rpcSubmit]) := by
  unfold dispatch
  rw [hrs, hsend]

theorem legacyBranch_primary_populated (env : Env) (msg : VMessage) (bh : String)
    (primary : SigPubkeyPair) (rest : List SigPubkeyPair)
    (hbh : ¬ bh = "") (hvalid : env.blockhashValid bh = true)
    (hmax : rest.length + 1 ≤ env.maxSignatures)
    (hpk : primary.publicKey = some env.identity)
    (hpop : primary.signature.isSome = true) :
    legacyBranch env msg ⟨some env.identity, bh, primary :: rest⟩ =
      (⟨400, errBody "invalid fee payer signature"⟩, [Event.rpcBlockhashCheck]) := by
  unfold legacyBranch
  simp [hbh, hvalid, hpk, hpop, Nat.not_lt.mpr hmax]

theorem legacyBranch_mixed (env : Env) (msg : VMessage) (bh : String)
    (primary : SigPubkeyPair) (rest : List SigPubkeyPair)
    (hbh : ¬ bh = "") (hvalid : env.blockhashValid bh = true)
    (hmax : rest.length + 1 ≤ env.maxSignatures)
    (hpk : primary.publicKey = some env.identity)
    (hps : primary.signature = none)
    (hpop : ∃ p ∈ rest, legacySlotUnsigned p = false)
    (hpkAll : ∀ p ∈ rest, p.publicKey.isSome = true)
    (hmiss : ∃ p ∈ rest, p.signature = none) :
    legacyBranch env msg ⟨some env.identity, bh, primary :: rest⟩ =
      (⟨400, errBody "missing signature"⟩, [Event.rpcBlockhashCheck]) := by
  have hall : rest.all legacySlotUnsigned = false := by
    rcases hpop with ⟨p, hp, hfalse⟩
    cases hcase : rest.all legacySlotUnsigned
    · rfl
    · exact absurd (List.all_eq_true.mp hcase p hp) (by simp [hfalse])
  have hsec := checkSecondaryLegacy_missing rest hpkAll hmiss
  unfold legacyBranch
  simp [hbh, hvalid, hpk, hps, Nat.not_lt.mpr hmax, hall, hsec]

theorem legacyBranch_sole_empty_slot (env : Env) (msg : VMessage) (bh : String)
    (hbh : ¬ bh = "") (hvalid : env.blockhashValid bh = true)
    (hmax : 1 ≤ env.maxSignatures)
    (hinstr : env.instructionsErr = none) (hsim : env.simulateErr = none) :
    legacyBranch env msg ⟨some env.identity, bh, [⟨some env.identity, none⟩]⟩ =
      dispatch env [Event.rpcBlockhashCheck, Event.sign, Event.rpcSimulate]
        (encode58 (env.signBytes msg)) := by
  unfold legacyBranch
  simp [hbh, hvalid, hinstr, simulateRawTransactionErr, hsim, Nat.not_lt.mpr hmax,
    legacySlotUnsigned]

theorem legacyBranch_too_many (env : Env) (msg : VMessage) (bh : String)
    (sigs : List SigPubkeyPair)
    (hbh : ¬ bh = "") (hvalid : env.blockhashValid bh = true)
    (hcnt : sigs.length > env.maxSignatures) :
    legacyBranch env msg ⟨some env.identity, bh, sigs⟩ =
      (⟨400, errBody "too many signatures"⟩, [Event.rpcBlockhashCheck]) := by
  have hnz : ¬ sigs.length = 0 := by omega
  unfold legacyBranch
  simp [hbh, hvalid, hnz, hcnt]

theorem v0Branch_single_signer (env : Env) (tx : VersionedTx) (s0 : List Nat)
    (hk : tx.message.staticAccountKeys.head? = some env.identity)
    (hbh : ¬ tx.message.recentBlockhash = "")
    (hvalid : env.blockhashValid tx.message.recentBlockhash = true)
    (hn1 : tx.message.numRequiredSignatures = 1)
    (hmax : 1 ≤ env.maxSignatures)
    (hs : tx.signatures = [s0]) (hsim : env.simulateErr = none) :
    v0Branch env tx =
      dispatch env [Event.rpcBlockhashCheck, Event.sign, Event.rpcSimulate]
        (encode58 (env.signBytes tx.message)) := by
  unfold v0Branch
  rw [hk]
  simp [hbh, hvalid, hn1, hs, hsim, v0Sign, Nat.not_lt.mpr hmax]

theorem v0Branch_multi_prepopulated (env : Env) (tx : VersionedTx) (s0 : List Nat)
    (hk : tx.message.staticAccountKeys.head? = some env.identity)
    (hbh : ¬ tx.message.recentBlockhash = "")
    (hvalid : env.blockhashValid tx.message.recentBlockhash = true)
    (hn : 1 < tx.message.numRequiredSignatures)
    (hmax : tx.message.numRequiredSignatures ≤ env.maxSignatures)
    (hlen : tx.signatures.length = tx.message.numRequiredSignatures)
    (hs0 : tx.signatures.head? = some s0)
    (hz0 : allZeroBytes s0 = false) :
    v0Branch env tx =
      (⟨400, errBody "invalid fee payer signature"⟩, [Event.rpcBlockhashCheck]) := by
  have hne1 : ¬ tx.message.numRequiredSignatures = 1 := by omega
  unfold v0Branch
  rw [hk]
  simp [hbh, hvalid, hlen, hs0, hz0, hne1, Nat.not_lt.mpr hmax]

theorem v0Branch_mixed (env : Env) (tx : VersionedTx) (s0 : List Nat)
    (hk : tx.message.staticAccountKeys.head? = some env.identity)
    (hbh : ¬ tx.message.recentBlockhash = "")
    (hvalid : env.blockhashValid tx.message.recentBlockhash = true)
    (hn : 1 < tx.message.numRequiredSignatures)
    (hmax : tx.message.numRequiredSignatures ≤ env.maxSignatures)
    (hlen : tx.signatures.length = tx.message.numRequiredSignatures)
    (hs0 : tx.signatures.head? = some s0)
    (hz0 : allZeroBytes s0 = true)
    (hsome : ∃ s ∈ tx.signatures.drop 1, allZeroBytes s = false)
    (hzero : ∃ s ∈ tx.signatures.drop 1, allZeroBytes s = true) :
    v0Branch env tx =
      (⟨400, errBody "missing required signature"⟩, [Event.rpcBlockhashCheck]) := by
  have hne1 : ¬ tx.message.numRequiredSignatures = 1 := by omega
  have hEx1 : ∃ x ∈ tx.signatures.tail, allZeroBytes x = false := by
    simpa [List.drop_one] using hsome
  have hEx2 : ∃ x ∈ tx.signatures.tail, allZeroBytes x = true := by
    simpa [List.drop_one] using hzero
  unfold v0Branch
  rw [hk]
  simp [hbh, hvalid, hlen, hs0, hz0, hne1, hEx1, hEx2, Nat.not_lt.mpr hmax]

theorem v0Branch_too_many (env : Env) (tx : VersionedTx)
    (hk : tx.message.staticAccountKeys.head? = some env.identity)
    (hbh : ¬ tx.message.recentBlockhash = "")
    (hvalid : env.blockhashValid tx.message.recentBlockhash = true)
    (hcnt : tx.message.numRequiredSignatures > env.maxSignatures) :
    v0Branch env tx =
      (⟨400, errBody "too many signatures"⟩, [Event.rpcBlockhashCheck]) := by
  unfold v0Branch
  rw [hk]
  simp [hbh, hvalid, hcnt]

theorem v0Branch_no_slots (env : Env) (tx : VersionedTx)
    (hk : tx.message.staticAccountKeys.head? = some env.identity)
    (hbh : ¬ tx.message.recentBlockhash = "")
    (hvalid : env.blockhashValid tx.message.recentBlockhash = true)
    (hn0 : tx.message.numRequiredSignatures = 0)
    (hz : tx.signatures = []) :
    v0Branch env tx =
      (⟨400, errBody "Cannot read properties of undefined (reading every)"⟩,
        [Event.rpcBlockhashCheck]) := by
  unfold v0Branch
  rw [hk]
  simp [hbh, hvalid, hn0, hz]

theorem runSponsor_legacy (env : Env) (c : CacheState) (now : Nat) (w : WireTx)
    (hlen : w.signatures.length = w.message.numRequiredSignatures)
    (hfresh : cacheGet c now w.message = false)
    (hleg : w.message.isLegacy = true) :
    (runSponsor env c now (.wire w)).resp =
        (legacyBranch env w.message (transactionFrom w)).1 ∧
    (runSponsor env c now (.wire w)).events =
        (legacyBranch env w.message (transactionFrom w)).2 := by
  rw [runSponsor_fresh env c now w hlen hfresh]
  unfold afterLock
  simp [hleg]

theorem runSponsor_v0 (env : Env) (c : CacheState) (now : Nat) (w : WireTx)
    (hlen : w.signatures.length = w.message.numRequiredSignatures)
    (hfresh : cacheGet c now w.message = false)
    (hv0 : w.message.isLegacy = false) :
    (runSponsor env c now (.wire w)).resp =
        (v0Branch env ⟨w.signatures, w.message⟩).1 ∧
    (runSponsor env c now (.wire w)).events =
        (v0Branch env ⟨w.signatures, w.message⟩).2 := by
  rw [runSponsor_fresh env c now w hlen hfresh]
  unfold afterLock
  simp [hv0]

/-- Counterexample for C4: a legacy single-signer transaction with a
populated fee payer slot is rejected with "invalid fee payer
signature" and never reaches signing, although the claim says the
required-signature-count-1 exception applies in the legacy variant
too. -/
theorem sponsor_fee_payer_slot_rule_cex :
    (runSponsor envA [] 0 (.wire wireC4Legacy)).resp =
        ⟨400, errBody "invalid fee payer signature"⟩ ∧
    Event.sign ∉ (runSponsor envA [] 0 (.wire wireC4Legacy)).events := by
  decide

/-- Claim C4 (amended): the fee payer slot must be empty or the
request is rejected with "invalid fee payer signature"; the
required-signature-count-1 exception, under which a populated slot is
tolerated and overwritten by the custodial signature, applies only in
the versioned variant; in the legacy variant a populated fee payer
slot is always rejected. -/
theorem sponsor_fee_payer_slot_rule :
    (∀ (env : Env) (c : CacheState) (now : Nat) (w : WireTx)
        (primary : SigPubkeyPair) (rest : List SigPubkeyPair),
        w.signatures.length = w.message.numRequiredSignatures →
        cacheGet c now w.message = false →
        w.message.isLegacy = true →
        transactionFrom w =
          ⟨some env.identity, w.message.recentBlockhash, primary :: rest⟩ →
        w.message.recentBlockhash ≠ "" →
        env.blockhashValid w.message.recentBlockhash = true →
        rest.length + 1 ≤ env.maxSignatures →
        primary.publicKey = some env.identity →
        primary.signature.isSome = true →
        (runSponsor env c now (.wire w)).resp =
            ⟨400, errBody "invalid fee payer signature"⟩ ∧
          Event.sign ∉ (runSponsor env c now (.wire w)).events)
  ∧ (∀ (env : Env) (c : CacheState) (now : Nat) (w : WireTx) (s0 : List Nat),
        w.signatures.length = w.message.numRequiredSignatures →
        cacheGet c now w.message = false →
        w.message.isLegacy = false →
        w.message.staticAccountKeys.head? = some env.identity →
        w.message.recentBlockhash ≠ "" →
        env.blockhashValid w.message.recentBlockhash = true →
        w.message.numRequiredSignatures = 1 →
        1 ≤ env.maxSignatures →
        w.signatures = [s0] →
        env.simulateErr = none →
        Event.sign ∈ (runSponsor env c now (.wire w)).events ∧
          (env.returnSignature = none → env.sendErr = none →
            (runSponsor env c now (.wire w)).resp =
              ⟨200, okBody (encode58 (env.signBytes w.message))⟩))
  ∧ (∀ (env : Env) (c : CacheState) (now : Nat) (w : WireTx) (s0 : List Nat),
        w.signatures.length = w.message.numRequiredSignatures →
        cacheGet c now w.message = false →
        w.message.isLegacy = false →
        w.message.staticAccountKeys.head? = some env.identity →
        w.message.recentBlockhash ≠ "" →
        env.blockhashValid w.message.recentBlockhash = true →
        1 < w.message.numRequiredSignatures →
        w.message.numRequiredSignatures ≤ env.maxSignatures →
        w.signatures.head? = some s0 →
        allZeroBytes s0 = false →
        (runSponsor env c now (.wire w)).resp =
            ⟨400, errBody "invalid fee payer signature"⟩ ∧
          Event.sign ∉ (runSponsor env c now (.wire w)).events) := by
  refine ⟨?_, ?_, ?_⟩
  · intro env c now w primary rest hlen hfresh hleg htx hbh hvalid hmax hpk hpop
    obtain ⟨hr, he⟩ := runSponsor_legacy env c now w hlen hfresh hleg
    rw [hr, he, htx, legacyBranch_primary_populated env w.message
      w.message.recentBlockhash primary rest hbh hvalid hmax hpk hpop]
    exact ⟨rfl, by simp⟩
  · intro env c now w s0 hlen hfresh hv0 hk hbh hvalid hn1 hmax hs hsim
    obtain ⟨hr, he⟩ := runSponsor_v0 env c now w hlen hfresh hv0
    have hb := v0Branch_single_signer env ⟨w.signatures, w.message⟩ s0
      hk hbh hvalid hn1 hmax (by exact congrArg id hs) hsim
    rw [hr, he, hb]
    constructor
    · rcases dispatch_events env [Event.rpcBlockhashCheck, Event.sign, Event.rpcSimulate]
        (encode58 (env.signBytes w.message)) with hde | hde <;> rw [hde] <;> simp
    · intro hrs hsend
      rw [dispatch_submit env _ _ hrs hsend]
  · intro env c now w s0 hlen hfresh hv0 hk hbh hvalid hn hmax hs0 hz0
    obtain ⟨hr, he⟩ := runSponsor_v0 env c now w hlen hfresh hv0
    have hb := v0Branch_multi_prepopulated env ⟨w.signatures, w.message⟩ s0
      hk hbh hvalid hn hmax hlen hs0 hz0
    rw [hr, he, hb]
    exact ⟨rfl, by simp⟩

/-- Witness for C4: a versioned single-signer transaction with a
populated fee payer slot is tolerated, signed, and the returned
identifier is the custodial signature, not the pre-populated bytes. -/
theorem sponsor_fee_payer_slot_rule_witness :
    Event.sign ∈ (runSponsor envA [] 0 (.wire wireC4V0)).events ∧
    (runSponsor envA [] 0 (.wire wireC4V0)).resp =
      ⟨200, okBody (encode58 (List.replicate 64 7))⟩ := by
  obtain ⟨h1, h2⟩ := sponsor_fee_payer_slot_rule.2.1 envA [] 0 wireC4V0 nine64
    (by decide) (by decide) (by decide) (by decide) (by decide) (by decide)
    (by decide) (by decide) (by decide) (by decide)
  exact ⟨h1, h2 rfl rfl⟩

/-- Counterexample for C5: a legacy three-signer transaction with one
populated and one empty secondary slot is rejected, but with the error
message "missing signature", not the claimed "missing required
signature". -/
theorem sponsor_mixed_signature_rejection_cex :
    (runSponsor envB [] 0 (.wire wireC5Legacy)).resp =
        ⟨400, errBody "missing signature"⟩ ∧
    (runSponsor envB [] 0 (.wire wireC5Legacy)).resp ≠
        ⟨400, errBody "missing required signature"⟩ := by
  decide

/-- Claim C5 (amended): for multi-signer transactions a mixed
secondary state, with some secondary slots populated and some empty,
is rejected before signing; the error message is "missing required
signature" in the versioned variant and "missing signature" in the
legacy variant. -/
theorem sponsor_mixed_signature_rejection :
    (∀ (env : Env) (c : CacheState) (now : Nat) (w : WireTx)
        (primary : SigPubkeyPair) (rest : List SigPubkeyPair),
        w.signatures.length = w.message.numRequiredSignatures →
        cacheGet c now w.message = false →
        w.message.isLegacy = true →
        transactionFrom w =
          ⟨some env.identity, w.message.recentBlockhash, primary :: rest⟩ →
        w.message.recentBlockhash ≠ "" →
        env.blockhashValid w.message.recentBlockhash = true →
        rest.length + 1 ≤ env.maxSignatures →
        primary.publicKey = some env.identity →
        primary.signature = none →
        (∃ p ∈ rest, legacySlotUnsigned p = false) →
        (∀ p ∈ rest, p.publicKey.isSome = true) →
        (∃ p ∈ rest, p.signature = none) →
        (runSponsor env c now (.wire w)).resp =
            ⟨400, errBody "missing signature"⟩ ∧
          Event.sign ∉ (runSponsor env c now (.wire w)).events)
  ∧ (∀ (env : Env) (c : CacheState) (now : Nat) (w : WireTx) (s0 : List Nat),
        w.signatures.length = w.message.numRequiredSignatures →
        cacheGet c now w.message = false →
        w.message.isLegacy = false →
        w.message.staticAccountKeys.head? = some env.identity →
        w.message.recentBlockhash ≠ "" →
        env.blockhashValid w.message.recentBlockhash = true →
        1 < w.message.numRequiredSignatures →
        w.message.numRequiredSignatures ≤ env.maxSignatures →
        w.signatures.head? = some s0 →
        allZeroBytes s0 = true →
        (∃ s ∈ w.signatures.drop 1, allZeroBytes s = false) →
        (∃ s ∈ w.signatures.drop 1, allZeroBytes s = true) →
        (runSponsor env c now (.wire w)).resp =
            ⟨400, errBody "missing required signature"⟩ ∧
          Event.sign ∉ (runSponsor env c now (.wire w)).events) := by
  constructor
  · intro env c now w primary rest hlen hfresh hleg htx hbh hvalid hmax hpk hps
      hpop hpkAll hmiss
    obtain ⟨hr, he⟩ := runSponsor_legacy env c now w hlen hfresh hleg
    rw [hr, he, htx, legacyBranch_mixed env w.message w.message.recentBlockhash
      primary rest hbh hvalid hmax hpk hps hpop hpkAll hmiss]
    exact ⟨rfl, by simp⟩
  · intro env c now w s0 hlen hfresh hv0 hk hbh hvalid hn hmax hs0 hz0 hsome hzero
    obtain ⟨hr, he⟩ := runSponsor_v0 env c now w hlen hfresh hv0
    have hb := v0Branch_mixed env ⟨w.signatures, w.message⟩ s0
      hk hbh hvalid hn hmax hlen hs0 hz0 hsome hzero
    rw [hr, he, hb]
    exact ⟨rfl, by simp⟩

/-- Witness for C5: a versioned three-signer transaction with one
populated and one empty secondary slot is rejected before signing with
"missing required signature". -/
theorem sponsor_mixed_signature_rejection_witness :
    (runSponsor envB [] 0 (.wire wireC5V0)).resp =
        ⟨400, errBody "missing required signature"⟩ ∧
    Event.sign ∉ (runSponsor envB [] 0 (.wire wireC5V0)).events :=
  sponsor_mixed_signature_rejection.2 envB [] 0 wireC5V0 defaultSignature
    (by decide) (by decide) (by decide) (by decide) (by decide) (by decide)
    (by decide) (by decide) (by decide) (by decide) (by decide) (by decide)

/-- Counterexample for C6: the spec scenario of a declared count of 3
against a bound of 2 is rejected with "too many signatures", but only
after the blockhash validity query, which is a network call; the trace
of the rejected run contains that call. -/
theorem sponsor_signature_count_bounds_cex :
    (runSponsor envA [] 0 (.wire wireC6V0)).resp =
        ⟨400, errBody "too many signatures"⟩ ∧
    (runSponsor envA [] 0 (.wire wireC6V0)).events = [Event.rpcBlockhashCheck] := by
  decide

/-- Claim C6 (amended): a required-signature count above maxSignatures
is rejected with "too many signatures" in both variants, but only
after the blockhash validity check, a network call, has been made.  A
transaction without any signature slot never reaches the legacy
"no signatures" check: it is rejected earlier, with "invalid fee
payer" in the legacy variant (the decoded fee payer is unset) and with
an internal property-access error in the versioned variant. -/
theorem sponsor_signature_count_bounds :
    (∀ (env : Env) (c : CacheState) (now : Nat) (w : WireTx)
        (sigs : List SigPubkeyPair),
        w.signatures.length = w.message.numRequiredSignatures →
        cacheGet c now w.message = false →
        w.message.isLegacy = true →
        transactionFrom w = ⟨some env.identity, w.message.recentBlockhash, sigs⟩ →
        w.message.recentBlockhash ≠ "" →
        env.blockhashValid w.message.recentBlockhash = true →
        sigs.length > env.maxSignatures →
        (runSponsor env c now (.wire w)).resp =
            ⟨400, errBody "too many signatures"⟩ ∧
          (runSponsor env c now (.wire w)).events = [Event.rpcBlockhashCheck])
  ∧ (∀ (env : Env) (c : CacheState) (now : Nat) (w : WireTx),
        w.signatures.length = w.message.numRequiredSignatures →
        cacheGet c now w.message = false →
        w.message.isLegacy = false →
        w.message.staticAccountKeys.head? = some env.identity →
        w.message.recentBlockhash ≠ "" →
        env.blockhashValid w.message.recentBlockhash = true →
        w.message.numRequiredSignatures > env.maxSignatures →
        (runSponsor env c now (.wire w)).resp =
            ⟨400, errBody "too many signatures"⟩ ∧
          (runSponsor env c now (.wire w)).events = [Event.rpcBlockhashCheck])
  ∧ (∀ (env : Env) (c : CacheState) (now : Nat) (w : WireTx),
        w.signatures.length = w.message.numRequiredSignatures →
        cacheGet c now w.message = false →
        w.message.isLegacy = true →
        w.signatures = [] →
        (runSponsor env c now (.wire w)).resp = ⟨400, errBody "invalid fee payer"⟩ ∧
          (runSponsor env c now (.wire w)).events = [])
  ∧ (∀ (env : Env) (c : CacheState) (now : Nat) (w : WireTx),
        w.signatures.length = w.message.numRequiredSignatures →
        cacheGet c now w.message = false →
        w.message.isLegacy = false →
        w.message.staticAccountKeys.head? = some env.identity →
        w.message.recentBlockhash ≠ "" →
        env.blockhashValid w.message.recentBlockhash = true →
        w.signatures = [] →
        (runSponsor env c now (.wire w)).resp =
            ⟨400, errBody "Cannot read properties of undefined (reading every)"⟩ ∧
          (runSponsor env c now (.wire w)).events = [Event.rpcBlockhashCheck]) := by
  refine ⟨?_, ?_, ?_, ?_⟩
  · intro env c now w sigs hlen hfresh hleg htx hbh hvalid hcnt
    obtain ⟨hr, he⟩ := runSponsor_legacy env c now w hlen hfresh hleg
    rw [hr, he, htx, legacyBranch_too_many env w.message w.message.recentBlockhash
      sigs hbh hvalid hcnt]
    exact ⟨rfl, rfl⟩
  · intro env c now w hlen hfresh hv0 hk hbh hvalid hcnt
    obtain ⟨hr, he⟩ := runSponsor_v0 env c now w hlen hfresh hv0
    have hb := v0Branch_too_many env ⟨w.signatures, w.message⟩ hk hbh hvalid hcnt
    rw [hr, he, hb]
    exact ⟨rfl, rfl⟩
  · intro env c now w hlen hfresh hleg hz
    obtain ⟨hr, he⟩ := runSponsor_legacy env c now w hlen hfresh hleg
    have hn0 : w.message.numRequiredSignatures = 0 := by
      rw [← hlen, hz]
      rfl
    have hfp : ¬ (transactionFrom w).feePayer = some env.identity := by
      unfold transactionFrom
      simp [hn0]
    rw [hr, he, legacyBranch_feePayer env w.message (transactionFrom w) hfp]
    exact ⟨rfl, rfl⟩
  · intro env c now w hlen hfresh hv0 hk hbh hvalid hz
    obtain ⟨hr, he⟩ := runSponsor_v0 env c now w hlen hfresh hv0
    have hn0 : w.message.numRequiredSignatures = 0 := by
      rw [← hlen, hz]
      rfl
    have hb := v0Branch_no_slots env ⟨w.signatures, w.message⟩ hk hbh hvalid hn0 hz
    rw [hr, he, hb]
    exact ⟨rfl, rfl⟩

/-- Witness for C6: a legacy transaction declaring three required
signatures against a bound of two is rejected with "too many
signatures" and its trace contains the blockhash network call. -/
theorem sponsor_signature_count_bounds_witness :
    (runSponsor envA [] 0 (.wire wireC6Legacy)).resp =
        ⟨400, errBody "too many signatures"⟩ ∧
    (runSponsor envA [] 0 (.wire wireC6Legacy)).events = [Event.rpcBlockhashCheck] :=
  sponsor_signature_count_bounds.1 envA [] 0 wireC6Legacy
    [⟨some 1, none⟩, ⟨some 2, none⟩, ⟨some 3, none⟩]
    (by decide) (by decide) (by decide) (by decide) (by decide) (by decide) (by decide)

set_option maxRecDepth 100000 in
/-- Counterexample for C7: under the allowAll returnSignature variant
the pipeline skips submission and returns an ok response, but the
response carries only the signature identifier; no field of the body
holds the signed transaction bytes, although the claim says the signed
bytes are returned. -/
theorem sponsor_allow_all_no_bytes_cex :
    (runSponsor envAllow [] 0 (.wire wireOkV0)).resp.status = 200 ∧
    (runSponsor envAllow [] 0 (.wire wireOkV0)).resp.body =
        okBody (encode58 (List.replicate 64 7)) ∧
    (∀ kv ∈ (runSponsor envAllow [] 0 (.wire wireOkV0)).resp.body,
        kv.2.isBytes = false) ∧
    Event.rpcSubmit ∉ (runSponsor envAllow [] 0 (.wire wireOkV0)).events := by
  decide

/-- Claim C7 (amended): when the returnSignature policy is the
allowAll variant, the pipeline skips submission and returns status ok
with the signed transaction signature identifier only; the signed
transaction bytes are not part of the response.  This holds in both
variants. -/
theorem sponsor_allow_all_sign_and_return :
    (∀ (env : Env) (c : CacheState) (now : Nat) (w : WireTx),
        w.signatures.length = w.message.numRequiredSignatures →
        cacheGet c now w.message = false →
        w.message.isLegacy = true →
        transactionFrom w =
          ⟨some env.identity, w.message.recentBlockhash, [⟨some env.identity, none⟩]⟩ →
        w.message.recentBlockhash ≠ "" →
        env.blockhashValid w.message.recentBlockhash = true →
        1 ≤ env.maxSignatures →
        env.instructionsErr = none →
        env.simulateErr = none →
        env.returnSignature = some .allowAll →
        (runSponsor env c now (.wire w)).resp =
            ⟨200, okBody (encode58 (env.signBytes w.message))⟩ ∧
          Event.rpcSubmit ∉ (runSponsor env c now (.wire w)).events ∧
          (∀ kv ∈ (runSponsor env c now (.wire w)).resp.body, kv.2.isBytes = false))
  ∧ (∀ (env : Env) (c : CacheState) (now : Nat) (w : WireTx) (s0 : List Nat),
        w.signatures.length = w.message.numRequiredSignatures →
        cacheGet c now w.message = false →
        w.message.isLegacy = false →
        w.message.staticAccountKeys.head? = some env.identity →
        w.message.recentBlockhash ≠ "" →
        env.blockhashValid w.message.recentBlockhash = true →
        w.message.numRequiredSignatures = 1 →
        1 ≤ env.maxSignatures →
        w.signatures = [s0] →
        env.simulateErr = none →
        env.returnSignature = some .allowAll →
        (runSponsor env c now (.wire w)).resp =
            ⟨200, okBody (encode58 (env.signBytes w.message))⟩ ∧
          Event.rpcSubmit ∉ (runSponsor env c now (.wire w)).events ∧
          (∀ kv ∈ (runSponsor env c now (.wire w)).resp.body, kv.2.isBytes = false)) := by
  have hbody : ∀ s : String, ∀ kv ∈ okBody s, (kv : String × JsonVal).2.isBytes = false := by
    intro s kv hkv
    simp [okBody] at hkv
    rcases hkv with h | h <;> rw [h] <;> rfl
  constructor
  · intro env c now w hlen hfresh hleg htx hbh hvalid hmax hinstr hsim hrs
    obtain ⟨hr, he⟩ := runSponsor_legacy env c now w hlen hfresh hleg
    rw [hr, he, htx, legacyBranch_sole_empty_slot env w.message
      w.message.recentBlockhash hbh hvalid hmax hinstr hsim,
      dispatch_allowAll env _ _ hrs]
    exact ⟨rfl, by simp, hbody _⟩
  · intro env c now w s0 hlen hfresh hv0 hk hbh hvalid hn1 hmax hs hsim hrs
    obtain ⟨hr, he⟩ := runSponsor_v0 env c now w hlen hfresh hv0
    have hb := v0Branch_single_signer env ⟨w.signatures, w.message⟩ s0
      hk hbh hvalid hn1 hmax hs hsim
    rw [hr, he, hb, dispatch_allowAll env _ _ hrs]
    exact ⟨rfl, by simp, hbody _⟩

/-- Witness for C7: a concrete legacy run under the allowAll variant
returns the signature identifier, skips submission, and its body holds
no byte payload. -/
theorem sponsor_allow_all_sign_and_return_witness :
    (runSponsor envAllow [] 0 (.wire wireOkLegacy)).resp =
        ⟨200, okBody (encode58 (List.replicate 64 7))⟩ ∧
    Event.rpcSubmit ∉ (runSponsor envAllow [] 0 (.wire wireOkLegacy)).events ∧
    (∀ kv ∈ (runSponsor envAllow [] 0 (.wire wireOkLegacy)).resp.body,
        kv.2.isBytes = false) :=
  sponsor_allow_all_sign_and_return.1 envAllow [] 0 wireOkLegacy
    (by decide) (by decide) (by decide) (by decide) (by decide) (by decide)
    (by decide) (by decide) (by decide) (by decide)

end Octane
